import Mathlib

/-!
Verification of the ikigai-whatsapp-bot session relay
(`src/ikigai_whatsapp_bot/services.py` and the schema/enum modules it uses),
as a shallow embedding in Lean 4.

Modelling conventions:
* Python `str` is `String`; Python slicing `s[:n]` is `String.take s n`
  (both operate on characters).
* Python dicts keyed by user id are association lists `List (String × α)`
  with dict-faithful insert / pop operations.
* `asyncio` side effects (channel sends, websocket sends) are collected into
  traces; exceptions are `Except`; awaiting oracles (does a given websocket
  send fail?, does a frame decode?) are explicit function parameters.
-/

/-- From `settings.py`: `EMPTY_MESSAGE_CONTENT: str = "_"`. -/
def EMPTY_MESSAGE_CONTENT : String := "_"

/-- From `schemas.py`: fields of the pydantic model `ButtonResponse`. -/
structure ButtonResponse where
  id : Int
  custom_id : String
  style : Int
  label : String
  clicked : Bool
  remove_after_click : Bool
deriving Repr, DecidableEq

/-- From `schemas.py`: the frozen dataclass `ButtonData` (callback payload). -/
structure ButtonData where
  id : Int
  custom_id : String
  style : Int
  label : String
  clicked : Bool
  remove_after_click : Bool
deriving Repr, DecidableEq

/-- The pywa `Button` as used by `_create_buttons`: a title shown on the
channel plus the attached callback data. -/
structure Button where
  title : String
  callback_data : ButtonData
deriving Repr, DecidableEq

/-- From `services.py` `BaseService._create_buttons`: one `Button` per
`ButtonResponse`, `title=button.label[:20]`, callback data copying every
field of the response, including the untruncated label. -/
def createButtons (buttons : List ButtonResponse) : List Button :=
  buttons.map (fun button =>
    { title := button.label.take 20
      callback_data :=
        { id := button.id
          custom_id := button.custom_id
          style := button.style
          label := button.label
          clicked := button.clicked
          remove_after_click := button.remove_after_click } })

/-- A message delivered to the channel, as produced by the send helpers of
`BaseService` (`whatsapp_client.send_message` / `send_image` /
`send_sticker` calls, in order). -/
inductive ChanMsg where
  | text (content : String) (buttons : List Button)
  | image (image : String) (caption : Option String) (buttons : List Button)
  | sticker (sticker : String)
deriving Repr, DecidableEq

/-- The successive slices `buttons[i : i + 3]` for `i = 0, 3, 6, ...` of the
Python `for i in range(...)` loop bodies in `_send_text` / `_send_image`. -/
def chunks3 {α : Type} : List α → List (List α)
  | [] => []
  | b :: rest => ((b :: rest).take 3) :: chunks3 ((b :: rest).drop 3)
termination_by l => l.length
decreasing_by simp; omega

theorem chunks3_mem {α : Type} {l c : List α} (hc : c ∈ chunks3 l) :
    0 < c.length ∧ c.length ≤ 3 := by
  induction l using chunks3.induct with
  | case1 => simp [chunks3] at hc
  | case2 b rest ih =>
    rw [chunks3] at hc
    rcases List.mem_cons.mp hc with h | h
    · subst h
      refine ⟨by simp, ?_⟩
      simpa using List.length_take_le 3 (b :: rest)
    · exact ih h

theorem chunks3_flatten {α : Type} (l : List α) : (chunks3 l).flatten = l := by
  induction l using chunks3.induct with
  | case1 => simp [chunks3]
  | case2 b rest ih =>
    rw [chunks3]
    simp only [List.flatten_cons, ih]
    exact List.take_append_drop 3 (b :: rest)

mutual

/-- From `services.py` `BaseService._send_text`: if there are more than 3
buttons, send the text with the first 3 and then run the
`for i in range(3, len(buttons), 3)` loop (`sendTextChunksLoop`) which
recursively sends each further slice of 3 with
`settings.EMPTY_MESSAGE_CONTENT`; otherwise send a single message.
(The `buttons and len(buttons) > 3` guard equals `3 < buttons.length`
because `None` is modelled as `[]`.) -/
def sendText (text : String) (buttons : List Button) : List ChanMsg :=
  if h : 3 < buttons.length then
    ChanMsg.text text (buttons.take 3) :: sendTextChunksLoop (buttons.drop 3)
  else
    [ChanMsg.text text buttons]
termination_by (buttons.length, 0)
decreasing_by
  simp_wf
  simp [Prod.lex_iff]
  omega

/-- The loop `for i in range(3, len(buttons), 3)` of `_send_text`, expressed
on the suffix `buttons[3:]`: each iteration takes the next slice of at most 3
buttons and recursively calls `_send_text` on it with the placeholder
content. -/
def sendTextChunksLoop : List Button → List ChanMsg
  | [] => []
  | b :: rest =>
      sendText EMPTY_MESSAGE_CONTENT ((b :: rest).take 3) ++
        sendTextChunksLoop ((b :: rest).drop 3)
termination_by l => (l.length, 1)
decreasing_by
  · simp_wf
    simp [Prod.lex_iff, List.length_take]
    omega
  · simp_wf
    simp [Prod.lex_iff]
    omega

end

/-- From `services.py` `BaseService._send_image`: same batching as
`_send_text`, except the first message is the image (with caption); the
follow-up slices go through `_send_text` with the placeholder content. -/
def sendImage (image : String) (caption : Option String)
    (buttons : List Button) : List ChanMsg :=
  if 3 < buttons.length then
    ChanMsg.image image caption (buttons.take 3) ::
      sendTextChunksLoop (buttons.drop 3)
  else
    [ChanMsg.image image caption buttons]

theorem sendText_small (text : String) (buttons : List Button)
    (h : buttons.length ≤ 3) : sendText text buttons = [ChanMsg.text text buttons] := by
  rw [sendText]
  simp [Nat.not_lt.mpr h]

theorem sendTextChunksLoop_eq (l : List Button) :
    sendTextChunksLoop l =
      (chunks3 l).map (fun c => ChanMsg.text EMPTY_MESSAGE_CONTENT c) := by
  induction l using chunks3.induct with
  | case1 => rw [sendTextChunksLoop, chunks3]; rfl
  | case2 b rest ih =>
    rw [sendTextChunksLoop, chunks3]
    rw [sendText_small _ _ (by simpa using List.length_take_le 3 (b :: rest)), ih]
    rfl

theorem sendText_big (text : String) (buttons : List Button)
    (h : 3 < buttons.length) :
    sendText text buttons =
      ChanMsg.text text (buttons.take 3) ::
        (chunks3 (buttons.drop 3)).map
          (fun c => ChanMsg.text EMPTY_MESSAGE_CONTENT c) := by
  rw [sendText, dif_pos h, sendTextChunksLoop_eq]

theorem sendImage_small (image : String) (caption : Option String)
    (buttons : List Button) (h : buttons.length ≤ 3) :
    sendImage image caption buttons = [ChanMsg.image image caption buttons] := by
  rw [sendImage]
  simp [Nat.not_lt.mpr h]

theorem sendImage_big (image : String) (caption : Option String)
    (buttons : List Button) (h : 3 < buttons.length) :
    sendImage image caption buttons =
      ChanMsg.image image caption (buttons.take 3) ::
        (chunks3 (buttons.drop 3)).map
          (fun c => ChanMsg.text EMPTY_MESSAGE_CONTENT c) := by
  rw [sendImage, if_pos h, sendTextChunksLoop_eq]

/-- A concrete button for witnesses. -/
def mkSampleButton (s : String) : Button :=
  { title := s, callback_data := ⟨0, s, 0, s, false, false⟩ }

/-- Five concrete buttons: forces one follow-up batch of 2. -/
def sampleButtons5 : List Button :=
  [mkSampleButton "b1", mkSampleButton "b2", mkSampleButton "b3",
   mkSampleButton "b4", mkSampleButton "b5"]

/-- Two concrete buttons: the single-message case. -/
def sampleButtons2 : List Button :=
  [mkSampleButton "b1", mkSampleButton "b2"]

/-- C3: sending content with more than 3 choices sends the first 3 with the
original content and the remaining choices in follow-up messages of at most
3 choices each, each follow-up carrying the configured placeholder content;
the original order of choices is preserved across all messages; 3 or fewer
choices yield a single message with the original content and all choices.
This holds for both the text send path and the image send path. -/
theorem c3_choice_batching (text image : String) (caption : Option String)
    (bs : List Button) :
    (3 < bs.length →
      sendText text bs =
        ChanMsg.text text (bs.take 3) ::
          (chunks3 (bs.drop 3)).map (fun c => ChanMsg.text EMPTY_MESSAGE_CONTENT c) ∧
      sendImage image caption bs =
        ChanMsg.image image caption (bs.take 3) ::
          (chunks3 (bs.drop 3)).map (fun c => ChanMsg.text EMPTY_MESSAGE_CONTENT c) ∧
      (∀ c ∈ chunks3 (bs.drop 3), 0 < c.length ∧ c.length ≤ 3) ∧
      bs.take 3 ++ (chunks3 (bs.drop 3)).flatten = bs) ∧
    (bs.length ≤ 3 →
      sendText text bs = [ChanMsg.text text bs] ∧
      sendImage image caption bs = [ChanMsg.image image caption bs]) := by
  constructor
  · intro h
    refine ⟨sendText_big text bs h, sendImage_big image caption bs h,
      fun c hc => chunks3_mem hc, ?_⟩
    rw [chunks3_flatten]
    exact List.take_append_drop 3 bs
  · intro h
    exact ⟨sendText_small text bs h, sendImage_small image caption bs h⟩

/-- Witness for C3 at a concrete 5-button list and a concrete 2-button
list. -/
theorem c3_choice_batching_witness :
    (3 < sampleButtons5.length ∧
      (sendText "hello" sampleButtons5 =
        ChanMsg.text "hello" (sampleButtons5.take 3) ::
          (chunks3 (sampleButtons5.drop 3)).map
            (fun c => ChanMsg.text EMPTY_MESSAGE_CONTENT c) ∧
      sendImage "pic.png" (some "cap") sampleButtons5 =
        ChanMsg.image "pic.png" (some "cap") (sampleButtons5.take 3) ::
          (chunks3 (sampleButtons5.drop 3)).map
            (fun c => ChanMsg.text EMPTY_MESSAGE_CONTENT c) ∧
      (∀ c ∈ chunks3 (sampleButtons5.drop 3), 0 < c.length ∧ c.length ≤ 3) ∧
      sampleButtons5.take 3 ++ (chunks3 (sampleButtons5.drop 3)).flatten
        = sampleButtons5)) ∧
    (sampleButtons2.length ≤ 3 ∧
      (sendText "hello" sampleButtons2 = [ChanMsg.text "hello" sampleButtons2] ∧
      sendImage "pic.png" (some "cap") sampleButtons2 =
        [ChanMsg.image "pic.png" (some "cap") sampleButtons2])) :=
  ⟨⟨by decide,
    (c3_choice_batching "hello" "pic.png" (some "cap") sampleButtons5).1 (by decide)⟩,
   ⟨by decide,
    (c3_choice_batching "hello" "pic.png" (some "cap") sampleButtons2).2 (by decide)⟩⟩

/-- C10: every button built from a backend `ButtonResponse` shows the label
truncated to at most 20 characters as its title, while the callback data
keeps the full untruncated label and every other field unchanged; order and
count of buttons are preserved. -/
theorem c10_button_title_truncation (buttons : List ButtonResponse) :
    (createButtons buttons).length = buttons.length ∧
    ∀ (i : Nat) (b : ButtonResponse), buttons[i]? = some b →
      (createButtons buttons)[i]? = some
        { title := b.label.take 20
          callback_data :=
            { id := b.id, custom_id := b.custom_id, style := b.style,
              label := b.label, clicked := b.clicked,
              remove_after_click := b.remove_after_click } } ∧
      (b.label.take 20).length ≤ 20 := by
  refine ⟨by simp [createButtons], ?_⟩
  intro i b hb
  constructor
  · rw [createButtons, List.getElem?_map, hb]
    rfl
  · rw [← String.length_data, String.data_take]
    exact List.length_take_le _ _

/-- From `schemas.py` `ImageResponse`: the fields `_send_image_to_user` acts
on.  The `user`/`channel` routing fields are omitted: every send inside one
response handling goes to the same user and they do not affect the message
sequence. -/
structure ImageResponse where
  image : String
  buttons : List ButtonResponse
  caption : Option String
deriving Repr, DecidableEq

/-- Python `s.endswith(suffix)`, on the character lists. -/
def pyEndsWith (s suffix : String) : Bool :=
  suffix.data.isSuffixOf s.data

/-- Models `str(image).rsplit(".", 1)[0] + ".webp"` for a string that ends
with `".gif"`: the last dot is the one starting that 4-character suffix, so
the head of the rsplit is the string with its last 4 characters removed. -/
def gifToWebp (image : String) : String :=
  String.mk (image.data.take (image.data.length - 4)) ++ ".webp"

/-- From `services.py` `BaseService._send_image_to_user`: if the image path
ends with `".gif"`, the path is rebound to the `.webp` variant and a sticker
is sent; execution then falls through (there is no `return`) to
`_send_image` with the rebound path, the caption and the buttons. -/
def sendImageToUser (response : ImageResponse) : List ChanMsg :=
  let image := response.image
  let caption := response.caption
  let buttons := createButtons response.buttons
  if pyEndsWith image ".gif" then
    let webp := gifToWebp image
    ChanMsg.sticker webp :: sendImage webp caption buttons
  else
    sendImage image caption buttons

/-- A concrete GIF instruction with a caption and one button. -/
def sampleGifResponse : ImageResponse :=
  { image := "anim.gif"
    buttons := [⟨3, "c3", 0, "Play", false, true⟩]
    caption := some "a caption" }

/-- C5 (counter-evidence): on a GIF image instruction carrying a caption and
a button, the code sends the sticker and THEN also sends an image message
with the same `.webp` path, the caption and the button — the caption and
buttons are not dropped and an image send does occur, because
`_send_image_to_user` lacks a `return` after `_send_sticker`. -/
theorem c5_gif_fallthrough_bug :
    sendImageToUser sampleGifResponse =
      [ChanMsg.sticker "anim.webp",
       ChanMsg.image "anim.webp" (some "a caption")
         [{ title := "Play", callback_data := ⟨3, "c3", 0, "Play", false, true⟩ }]] := by
  decide

/-- A concrete backend button with a 25-character label. -/
def sampleButtonResponse : ButtonResponse :=
  ⟨7, "custom-7", 1, "aaaaaaaaaaaaaaaaaaaaaaaaa", false, true⟩

/-- Witness for C10 at a concrete one-button list. -/
theorem c10_button_title_truncation_witness :
    (createButtons [sampleButtonResponse])[0]? = some
      { title := sampleButtonResponse.label.take 20
        callback_data :=
          { id := sampleButtonResponse.id
            custom_id := sampleButtonResponse.custom_id
            style := sampleButtonResponse.style
            label := sampleButtonResponse.label
            clicked := sampleButtonResponse.clicked
            remove_after_click := sampleButtonResponse.remove_after_click } } ∧
    (sampleButtonResponse.label.take 20).length ≤ 20 :=
  (c10_button_title_truncation [sampleButtonResponse]).2 0 sampleButtonResponse rfl

/-! ## The per-user instruction queue and worker (`BaseService`) -/

/-- Python exceptions that the worker loop can catch. -/
inductive PyExc where
  | attributeError (missing : String)
  | validationError
  | handlerError (msg : String)
deriving Repr, DecidableEq

/-- From `enums.py`: the members of `class ResponseTypes(str, Enum)` and
their values.  Exactly the six members defined in the source. -/
def responseTypesMembers : List (String × String) :=
  [("MESSAGE", "message"), ("IMAGE", "image"), ("ADD_ROLE", "add_role"),
   ("REMOVE_ROLE", "remove_role"), ("START_TYPING", "start_typing"),
   ("STOP_TYPING", "stop_typing")]

/-- Python attribute access `ResponseTypes.<name>.value`: `some` of the
member's value when the member exists, `none` when the access raises
`AttributeError`. -/
def responseTypesMemberValue (name : String) : Option String :=
  responseTypesMembers.lookup name

/-- The action tags having a `case` arm in the `match` of
`_handle_response` (each arm is `ResponseTypes.<member>.value` for a member
that exists, so each literal equals the member's value). -/
def knownActionTags : List String :=
  ["message", "image", "add_role", "remove_role", "start_typing", "stop_typing"]

/-- One queued instruction: the `task["action"]` tag and its
`task["content"]` payload (kept as an opaque JSON blob). -/
structure WTask where
  action : String
  content : String
deriving Repr, DecidableEq

/-- From `services.py` `BaseService._handle_response`: dispatch on the
action tag.  Each `case` arm constructs the pydantic model from the payload
and calls the matching `_send_*` / role / typing coroutine; that validate-
and-execute side effect is abstracted as the oracle `runArm`, which either
succeeds or raises.  A tag with no arm falls through the `match`.  In every
non-raising path the function returns the action tag unchanged. -/
def handleResponse (runArm : String → String → Except PyExc Unit)
    (action : String) (content : String) : Except PyExc String :=
  if action ∈ knownActionTags then
    match runArm action content with
    | Except.ok _ => Except.ok action
    | Except.error e => Except.error e
  else
    Except.ok action

/-- Python dict assignment `d[k] = v`: overwrite in place, else append. -/
def dictSet {α : Type} (k : String) (v : α) :
    List (String × α) → List (String × α)
  | [] => [(k, v)]
  | (k2, v2) :: rest =>
      if k2 = k then (k, v) :: rest else (k2, v2) :: dictSet k v rest

/-- Python `d.pop(k, None)`: remove the key if present. -/
def dictPop {α : Type} (k : String) :
    List (String × α) → List (String × α)
  | [] => []
  | (k2, v) :: rest =>
      if k2 = k then dictPop k rest else (k2, v) :: dictPop k rest

/-- The mutable per-user registries of `BaseService`: `user_queues` (queue
contents, in FIFO order) and `user_tasks` (worker task ids, allocated from
the counter `nextTaskId`). -/
structure SvcState where
  user_queues : List (String × List WTask)
  user_tasks : List (String × Nat)
  nextTaskId : Nat
deriving Repr, DecidableEq

/-- From `services.py` `BaseService._get_or_create_queue`: when the user has
no queue, create an empty queue and a worker task for it (both registries
are written together); otherwise leave the state unchanged. -/
def getOrCreateQueue (user : String) (st : SvcState) : SvcState :=
  if (st.user_queues.lookup user).isSome then st
  else
    { st with
      user_queues := dictSet user [] st.user_queues
      user_tasks := dictSet user st.nextTaskId st.user_tasks
      nextTaskId := st.nextTaskId + 1 }

/-- From `services.py` `BaseService._close_queue`: pop the user from both
registries. -/
def closeQueue (user : String) (st : SvcState) : SvcState :=
  { st with
    user_queues := dictPop user st.user_queues
    user_tasks := dictPop user st.user_tasks }

/-- From `services.py` `BaseService.add_response_to_queue`: get or create
the user's queue, then `queue.put(response)` (append at the tail). -/
def addResponseToQueue (user : String) (task : WTask) (st : SvcState) :
    SvcState :=
  let st1 := getOrCreateQueue user st
  match st1.user_queues.lookup user with
  | some q => { st1 with user_queues := dictSet user (q ++ [task]) st1.user_queues }
  | none => st1

/-- One iteration of the `while True` loop of `_process_queue`, after
`await queue.get()` returned `t`: run `_handle_response` inside the `try`;
on success evaluate `ResponseTypes.STOP_PROCESS.value` (an attribute access
on the enum) and compare; `break` via `_close_queue` when equal.  Any
exception of the `try` body — including the `AttributeError` from a missing
enum member — is caught by `except Exception`, logged, and the loop
continues.  Returns (state, loop broke?, caught-and-logged exception). -/
def processOne (runArm : String → String → Except PyExc Unit) (user : String)
    (st : SvcState) (t : WTask) : SvcState × Bool × Option PyExc :=
  match handleResponse runArm t.action t.content with
  | Except.error e => (st, false, some e)
  | Except.ok event =>
      match responseTypesMemberValue "STOP_PROCESS" with
      | none => (st, false, some (PyExc.attributeError "STOP_PROCESS"))
      | some v =>
          if event = v then (closeQueue user st, true, none)
          else (st, false, none)

/-- Worker trace events: `start t` when the worker begins handling a
dequeued instruction, `finish t c` when that handling completes (`c` is the
exception that was caught and logged, if any). -/
inductive WorkerEv where
  | start (t : WTask)
  | finish (t : WTask) (caught : Option PyExc)
deriving Repr, DecidableEq

/-- From `services.py` `BaseService._process_queue`: drain the given
enqueued instructions in FIFO order, one full iteration per instruction,
stopping early only when an iteration breaks the loop.  (The real worker
then blocks on `await queue.get()`; an empty remainder models that.) -/
def processQueue (runArm : String → String → Except PyExc Unit)
    (user : String) (st : SvcState) :
    List WTask → SvcState × List WorkerEv
  | [] => (st, [])
  | t :: ts =>
      let r := processOne runArm user st t
      if r.2.1 then (r.1, [WorkerEv.start t, WorkerEv.finish t r.2.2])
      else
        let rest := processQueue runArm user r.1 ts
        (rest.1, WorkerEv.start t :: WorkerEv.finish t r.2.2 :: rest.2)

/-- `enums.py` defines no `STOP_PROCESS` member on `ResponseTypes`, so the
attribute access in `_process_queue` raises `AttributeError`. -/
theorem responseTypes_stop_process_missing :
    responseTypesMemberValue "STOP_PROCESS" = none := by decide

/-- The exception one worker iteration catches and logs for an instruction:
the handler's own exception when handling fails, and otherwise the
`AttributeError` raised by `ResponseTypes.STOP_PROCESS`. -/
def workerCaught (runArm : String → String → Except PyExc Unit)
    (t : WTask) : Option PyExc :=
  match handleResponse runArm t.action t.content with
  | Except.error e => some e
  | Except.ok _ => some (PyExc.attributeError "STOP_PROCESS")

theorem processOne_eq (runArm : String → String → Except PyExc Unit)
    (user : String) (st : SvcState) (t : WTask) :
    processOne runArm user st t = (st, false, workerCaught runArm t) := by
  unfold processOne workerCaught
  rw [responseTypes_stop_process_missing]
  cases handleResponse runArm t.action t.content <;> rfl

theorem processQueue_eq (runArm : String → String → Except PyExc Unit)
    (user : String) (st : SvcState) (tasks : List WTask) :
    processQueue runArm user st tasks
      = (st, tasks.flatMap (fun t =>
          [WorkerEv.start t, WorkerEv.finish t (workerCaught runArm t)])) := by
  induction tasks with
  | nil => rfl
  | cons t ts ih =>
      rw [processQueue, processOne_eq]
      simp [ih]

/-- The instructions a worker trace begins handling, in order. -/
def workerStarts (trace : List WorkerEv) : List WTask :=
  trace.filterMap (fun ev =>
    match ev with
    | WorkerEv.start t => some t
    | WorkerEv.finish _ _ => none)

/-- Decides that a worker trace is sequential: each started instruction is
finished before the next one is started. -/
def seqWorker : List WorkerEv → Bool
  | [] => true
  | WorkerEv.start t :: WorkerEv.finish t2 _ :: rest => t == t2 && seqWorker rest
  | _ => false

/-- C2: the worker applies the enqueued instructions in exactly the enqueue
order (each exactly once), and handling of one instruction completes before
the next one is pulled — no two instructions of the same user are in flight
together. -/
theorem c2_worker_fifo_sequential (runArm : String → String → Except PyExc Unit)
    (user : String) (st : SvcState) (tasks : List WTask) :
    workerStarts (processQueue runArm user st tasks).2 = tasks ∧
    seqWorker (processQueue runArm user st tasks).2 = true := by
  rw [processQueue_eq]
  constructor
  · induction tasks with
    | nil => rfl
    | cons t ts ih => simp only [List.flatMap_cons, workerStarts] at ih ⊢; simp [ih]
  · induction tasks with
    | nil => rfl
    | cons t ts ih =>
        simp only [List.flatMap_cons, List.cons_append, List.nil_append]
        rw [seqWorker]
        simp [ih]

/-- An arm oracle whose handlers always succeed. -/
def stopRunArm : String → String → Except PyExc Unit := fun _ _ => Except.ok ()

/-- A concrete service state: user `"u1"` has a queue (holding one
`stop_process` instruction) and a worker task. -/
def sampleStopState : SvcState :=
  addResponseToQueue "u1" ⟨"stop_process", ""⟩ ⟨[], [], 0⟩

/-- C4 (counter-evidence): on a `stop_process` instruction the worker does
NOT tear down and exit: `ResponseTypes` has no `STOP_PROCESS` member, so the
comparison in `_process_queue` raises `AttributeError`, which the worker's
`except Exception` catches and logs; the user's queue and task mappings
survive and the loop continues. -/
theorem c4_stop_process_attribute_error :
    responseTypesMemberValue "STOP_PROCESS" = none ∧
    processOne stopRunArm "u1" sampleStopState ⟨"stop_process", ""⟩
      = (sampleStopState, false, some (PyExc.attributeError "STOP_PROCESS")) ∧
    ((processQueue stopRunArm "u1" sampleStopState
        [⟨"stop_process", ""⟩]).1.user_queues.lookup "u1").isSome = true ∧
    ((processQueue stopRunArm "u1" sampleStopState
        [⟨"stop_process", ""⟩]).1.user_tasks.lookup "u1").isSome = true := by
  decide

/-- C8: an instruction whose handling raises is caught: the worker logs the
exception, the registries are untouched, the failing instruction is handled
exactly once (no retry, no requeue), and every queued instruction after it
is still processed — the worker loop does not terminate. -/
theorem c8_handler_failure_contained (runArm : String → String → Except PyExc Unit)
    (user : String) (st : SvcState) (pre post : List WTask) (t : WTask)
    (e : PyExc)
    (hfail : handleResponse runArm t.action t.content = Except.error e) :
    (processQueue runArm user st (pre ++ t :: post)).1 = st ∧
    (processQueue runArm user st (pre ++ t :: post)).2
      = (processQueue runArm user st pre).2
        ++ WorkerEv.start t :: WorkerEv.finish t (some e)
          :: (processQueue runArm user st post).2 := by
  have hc : workerCaught runArm t = some e := by
    unfold workerCaught
    rw [hfail]
  rw [processQueue_eq, processQueue_eq, processQueue_eq]
  refine ⟨rfl, ?_⟩
  simp [hc]

/-- An arm oracle failing exactly on `image` payload validation. -/
def failRunArm : String → String → Except PyExc Unit :=
  fun action _ =>
    if action = "image" then Except.error PyExc.validationError else Except.ok ()

/-- Witness for C8: a failing `image` instruction between two `message`
instructions, on a concrete state. -/
theorem c8_handler_failure_contained_witness :
    handleResponse failRunArm "image" "bad" = Except.error PyExc.validationError ∧
    ((processQueue failRunArm "u1" sampleStopState
        ([⟨"message", "m1"⟩] ++ ⟨"image", "bad"⟩ :: [⟨"message", "m2"⟩])).1
      = sampleStopState ∧
    (processQueue failRunArm "u1" sampleStopState
        ([⟨"message", "m1"⟩] ++ ⟨"image", "bad"⟩ :: [⟨"message", "m2"⟩])).2
      = (processQueue failRunArm "u1" sampleStopState [⟨"message", "m1"⟩]).2
        ++ WorkerEv.start ⟨"image", "bad"⟩
          :: WorkerEv.finish ⟨"image", "bad"⟩ (some PyExc.validationError)
          :: (processQueue failRunArm "u1" sampleStopState [⟨"message", "m2"⟩]).2) :=
  ⟨by rfl,
   c8_handler_failure_contained failRunArm "u1" sampleStopState
     [⟨"message", "m1"⟩] [⟨"message", "m2"⟩] ⟨"image", "bad"⟩
     PyExc.validationError (by rfl)⟩

theorem lookup_cons_split {α : Type} (k2 k : String) (v : α)
    (rest : List (String × α)) :
    List.lookup k2 ((k, v) :: rest)
      = if k2 = k then some v else List.lookup k2 rest := by
  by_cases h : k2 = k
  · simp [List.lookup, h]
  · have hb : (k2 == k) = false := by simp [h]
    simp [List.lookup, hb, h]

theorem lookup_dictSet {α : Type} (k k2 : String) (v : α)
    (d : List (String × α)) :
    (dictSet k v d).lookup k2 = if k2 = k then some v else d.lookup k2 := by
  induction d with
  | nil => rw [dictSet, lookup_cons_split]
  | cons kv rest ih =>
      obtain ⟨k3, v3⟩ := kv
      rw [dictSet]
      by_cases h1 : k3 = k
      · rw [if_pos h1, lookup_cons_split, lookup_cons_split]
        by_cases h2 : k2 = k <;> simp [h2, h1]
      · rw [if_neg h1, lookup_cons_split, lookup_cons_split, ih]
        by_cases h2 : k2 = k3
        · simp [h2, h1]
        · simp [h2]

theorem lookup_dictPop {α : Type} (k k2 : String) (d : List (String × α)) :
    (dictPop k d).lookup k2 = if k2 = k then none else d.lookup k2 := by
  induction d with
  | nil => simp [dictPop, List.lookup]
  | cons kv rest ih =>
      obtain ⟨k3, v3⟩ := kv
      rw [dictPop]
      by_cases h1 : k3 = k
      · rw [if_pos h1, ih, lookup_cons_split]
        by_cases h2 : k2 = k <;> simp [h2, h1]
      · rw [if_neg h1, lookup_cons_split, lookup_cons_split, ih]
        by_cases h2 : k2 = k3
        · simp [h2, h1]
        · simp [h2]

/-- The invariant of C9: a user has a queue in `user_queues` exactly when it
has a worker task in `user_tasks`. -/
def keysAligned (st : SvcState) : Prop :=
  ∀ u : String,
    (st.user_queues.lookup u).isSome ↔ (st.user_tasks.lookup u).isSome

theorem keysAligned_getOrCreateQueue (user : String) (st : SvcState)
    (h : keysAligned st) : keysAligned (getOrCreateQueue user st) := by
  intro u
  rw [getOrCreateQueue]
  by_cases hq : (st.user_queues.lookup user).isSome
  · rw [if_pos hq]
    exact h u
  · rw [if_neg hq]
    simp only [lookup_dictSet]
    by_cases hu : u = user
    · simp [hu]
    · simp only [if_neg hu]
      exact h u

theorem keysAligned_closeQueue (user : String) (st : SvcState)
    (h : keysAligned st) : keysAligned (closeQueue user st) := by
  intro u
  rw [closeQueue]
  simp only [lookup_dictPop]
  by_cases hu : u = user
  · simp [hu]
  · simp only [if_neg hu]
    exact h u

theorem keysAligned_addResponseToQueue (user : String) (t : WTask)
    (st : SvcState) (h : keysAligned st) :
    keysAligned (addResponseToQueue user t st) := by
  have h1 := keysAligned_getOrCreateQueue user st h
  intro u
  rw [addResponseToQueue]
  cases hq : (getOrCreateQueue user st).user_queues.lookup user with
  | none => exact h1 u
  | some q =>
      simp only [lookup_dictSet]
      by_cases hu : u = user
      · subst hu
        simpa [hq] using h1 u
      · simp only [if_neg hu]
        exact h1 u

/-- C9: every operation of the service preserves the alignment of the two
registries: queue creation writes both maps together, teardown pops both
together, enqueueing only rewrites an existing queue entry, and a worker run
leaves the registries as it found them — so a worker task exists for a user
exactly when that user's queue exists. -/
theorem c9_registries_aligned (user : String) (t : WTask) (st : SvcState)
    (h : keysAligned st) :
    keysAligned (getOrCreateQueue user st) ∧
    keysAligned (closeQueue user st) ∧
    keysAligned (addResponseToQueue user t st) ∧
    ∀ (runArm : String → String → Except PyExc Unit) (tasks : List WTask),
      keysAligned ((processQueue runArm user st tasks).1) := by
  refine ⟨keysAligned_getOrCreateQueue user st h,
    keysAligned_closeQueue user st h,
    keysAligned_addResponseToQueue user t st h, ?_⟩
  intro runArm tasks
  rw [processQueue_eq]
  exact h

/-- Witness for C9: the empty service state is aligned, and the operations
keep it so. -/
theorem c9_registries_aligned_witness :
    keysAligned ⟨[], [], 0⟩ ∧
    (keysAligned (getOrCreateQueue "u1" ⟨[], [], 0⟩) ∧
    keysAligned (closeQueue "u1" ⟨[], [], 0⟩) ∧
    keysAligned (addResponseToQueue "u1" ⟨"message", "m"⟩ ⟨[], [], 0⟩) ∧
    ∀ (runArm : String → String → Except PyExc Unit) (tasks : List WTask),
      keysAligned ((processQueue runArm "u1" ⟨[], [], 0⟩ tasks).1)) :=
  ⟨fun _ => Iff.rfl,
   c9_registries_aligned "u1" ⟨"message", "m"⟩ ⟨[], [], 0⟩ (fun _ => Iff.rfl)⟩

/-! ## The per-user websocket connection registry (`WebSocketService`) -/

/-- The mutable state of `WebSocketService`: `connections` maps a user id to
its tracked websocket connection (connections are named by the counter
`nextConn`, so a later-created connection always has a larger id). -/
structure WsState where
  connections : List (String × Nat)
  nextConn : Nat
deriving Repr, DecidableEq

/-- From `services.py` `WebSocketService._get_or_create_connection`: return
the tracked connection when there is one; otherwise open a fresh connection
(`await websockets.connect`), track it, start its listen task, and return it
with `created = true`. -/
def getOrCreateConnection (user : String) (st : WsState) :
    Nat × Bool × WsState :=
  match st.connections.lookup user with
  | some c => (c, false, st)
  | none =>
      (st.nextConn, true,
       { connections := dictSet user st.nextConn st.connections
         nextConn := st.nextConn + 1 })

/-- The `websockets.exceptions.ConnectionClosed` raised by `send` on a given
connection. -/
inductive WsError where
  | connectionClosed (conn : Nat)
deriving Repr, DecidableEq

/-- From `services.py` `WebSocketService.post_message_to_server` and
`post_button_click_to_server` (their bodies are identical except for which
serializer builds the outgoing JSON; the payload does not influence the
control flow, so one embedding covers both): get or create the connection
and send on it.  The oracle `closed` says whether sending on a given
connection raises `ConnectionClosed`.  On a first failure the stale mapping
is popped and the call recurses with `is_retry=True`; on a retry failure the
error is re-raised.  Returns (propagated error, final state, attempted
connections in order). -/
def postEvent (closed : Nat → Bool) (user : String) (is_retry : Bool)
    (st : WsState) : Option WsError × WsState × List Nat :=
  let r := getOrCreateConnection user st
  let conn := r.1
  let st1 := r.2.2
  if closed conn then
    if h : is_retry then (some (WsError.connectionClosed conn), st1, [conn])
    else
      let st2 : WsState := { st1 with connections := dictPop user st1.connections }
      let r2 := postEvent closed user true st2
      (r2.1, r2.2.1, conn :: r2.2.2)
  else (none, st1, [conn])
termination_by (if is_retry then 0 else 1)
decreasing_by
  simp_wf
  simp [Bool.not_eq_true] at h
  simp [h]

/-- Well-formedness of the registry: every tracked connection id was
allocated below the counter. -/
def WsWf (st : WsState) : Prop :=
  ∀ (u : String) (c : Nat), st.connections.lookup u = some c → c < st.nextConn

/-- Unfolding of `postEvent` at `is_retry = true`. -/
theorem postEvent_retry (closed : Nat → Bool) (user : String) (st : WsState) :
    postEvent closed user true st =
      (if closed (getOrCreateConnection user st).1 then
        (some (WsError.connectionClosed (getOrCreateConnection user st).1),
         (getOrCreateConnection user st).2.2,
         [(getOrCreateConnection user st).1])
      else
        (none, (getOrCreateConnection user st).2.2,
         [(getOrCreateConnection user st).1])) := by
  rw [postEvent]
  by_cases h : closed (getOrCreateConnection user st).1 <;> simp [h]

/-- The registry state after the first-failure cleanup
`self.connections.pop(user_id, None)`: the state left by the first
`_get_or_create_connection`, with the user's stale mapping removed. -/
def staleRemoved (user : String) (st : WsState) : WsState :=
  { (getOrCreateConnection user st).2.2 with
    connections := dictPop user (getOrCreateConnection user st).2.2.connections }

/-- The connection the retry sends on: what `_get_or_create_connection`
yields after the stale mapping is removed. -/
def retryConn (user : String) (st : WsState) : Nat :=
  (getOrCreateConnection user (staleRemoved user st)).1

/-- Unfolding of `postEvent` at `is_retry = false`. -/
theorem postEvent_first (closed : Nat → Bool) (user : String) (st : WsState) :
    postEvent closed user false st =
      (if closed (getOrCreateConnection user st).1 then
        ((postEvent closed user true (staleRemoved user st)).1,
         (postEvent closed user true (staleRemoved user st)).2.1,
         (getOrCreateConnection user st).1 ::
           (postEvent closed user true (staleRemoved user st)).2.2)
      else
        (none, (getOrCreateConnection user st).2.2,
         [(getOrCreateConnection user st).1])) := by
  rw [postEvent]
  by_cases h : closed (getOrCreateConnection user st).1 <;> simp [h, staleRemoved]

theorem staleRemoved_lookup (user : String) (st : WsState) :
    (staleRemoved user st).connections.lookup user = none := by
  rw [staleRemoved]
  simp only []
  rw [lookup_dictPop]
  simp

theorem getOrCreate_staleRemoved (user : String) (st : WsState) :
    getOrCreateConnection user (staleRemoved user st)
      = ((staleRemoved user st).nextConn, true,
         ⟨dictSet user (staleRemoved user st).nextConn
            (staleRemoved user st).connections,
          (staleRemoved user st).nextConn + 1⟩) := by
  rw [getOrCreateConnection, staleRemoved_lookup]

theorem getOrCreate_lt (user : String) (st : WsState) (hwf : WsWf st) :
    (getOrCreateConnection user st).1 < (staleRemoved user st).nextConn := by
  rw [staleRemoved]
  rcases hlk : st.connections.lookup user with _ | c
  · rw [getOrCreateConnection, hlk]
    simp
  · rw [getOrCreateConnection, hlk]
    exact hwf user c hlk

/-- C1: an outbound send over the streaming transport
(`post_message_to_server` / `post_button_click_to_server`): when the first
send succeeds, there is exactly one attempt and no error.  When the first
send raises `ConnectionClosed`, the stale mapping is removed, a fresh
connection (distinct from the first, newly created) is obtained, and
exactly one retry is attempted — the attempt trace is exactly two
connections long, never three.  A successful retry yields no error; a retry
that raises `ConnectionClosed` propagates that second error unchanged to
the caller — it is never swallowed. -/
theorem c1_send_retry_exactly_once (closed : Nat → Bool) (user : String)
    (st : WsState) (hwf : WsWf st) :
    (closed (getOrCreateConnection user st).1 = false →
      postEvent closed user false st
        = (none, (getOrCreateConnection user st).2.2,
           [(getOrCreateConnection user st).1])) ∧
    (closed (getOrCreateConnection user st).1 = true →
      retryConn user st ≠ (getOrCreateConnection user st).1 ∧
      (getOrCreateConnection user (staleRemoved user st)).2.1 = true ∧
      (postEvent closed user false st).2.2
        = [(getOrCreateConnection user st).1, retryConn user st] ∧
      (closed (retryConn user st) = false →
        (postEvent closed user false st).1 = none) ∧
      (closed (retryConn user st) = true →
        (postEvent closed user false st).1
          = some (WsError.connectionClosed (retryConn user st)))) := by
  have hlt := getOrCreate_lt user st hwf
  have hrc : retryConn user st = (staleRemoved user st).nextConn := by
    rw [retryConn, getOrCreate_staleRemoved]
  constructor
  · intro hc
    rw [postEvent_first, if_neg (by rw [hc]; exact Bool.false_ne_true)]
  · intro hc
    refine ⟨by rw [hrc]; omega, by rw [getOrCreate_staleRemoved], ?_, ?_, ?_⟩
    all_goals rw [postEvent_first, if_pos hc, postEvent_retry]
    · by_cases h2 : closed (getOrCreateConnection user (staleRemoved user st)).1 <;>
        simp [h2, retryConn]
    · intro h2
      rw [← retryConn] at *
      rw [if_neg (by rw [h2]; exact Bool.false_ne_true)]
    · intro h2
      rw [← retryConn] at *
      rw [if_pos h2]

/-- The empty connection registry. -/
def wsEmpty : WsState := ⟨[], 0⟩

/-- A send oracle under which connection 0 is closed and all later
connections accept the send. -/
def closed0 : Nat → Bool := fun c => c == 0

/-- Witness for C1: a fresh user on an empty registry; the first send hits
the closed connection 0, the retry succeeds on the fresh connection 1. -/
theorem c1_send_retry_exactly_once_witness :
    closed0 (getOrCreateConnection "u" wsEmpty).1 = true ∧
    (retryConn "u" wsEmpty ≠ (getOrCreateConnection "u" wsEmpty).1 ∧
     (getOrCreateConnection "u" (staleRemoved "u" wsEmpty)).2.1 = true ∧
     (postEvent closed0 "u" false wsEmpty).2.2
       = [(getOrCreateConnection "u" wsEmpty).1, retryConn "u" wsEmpty] ∧
     (closed0 (retryConn "u" wsEmpty) = false →
       (postEvent closed0 "u" false wsEmpty).1 = none) ∧
     (closed0 (retryConn "u" wsEmpty) = true →
       (postEvent closed0 "u" false wsEmpty).1
         = some (WsError.connectionClosed (retryConn "u" wsEmpty)))) :=
  ⟨by rfl,
   (c1_send_retry_exactly_once closed0 "u" wsEmpty
      (fun _ _ h => Option.noConfusion h)).2 (by rfl)⟩

/-! ## The per-connection receive loop (`WebSocketService._listen_to_connection`) -/

/-- The `async for` body of `_listen_to_connection`: decode each frame with
`json.loads` (the oracle `jsonLoads`; `none` models a raised decode error)
and dispatch it via `add_response_to_queue`.  Returns the dispatched
payloads in order and, when a frame failed to decode, that frame (the
exception escaping the loop). -/
def listenLoop (jsonLoads : String → Option String) :
    List String → List String × Option String
  | [] => ([], none)
  | f :: fs =>
      match jsonLoads f with
      | some r =>
          let rest := listenLoop jsonLoads fs
          (r :: rest.1, rest.2)
      | none => ([], some f)

/-- The observable outcome of `_listen_to_connection` on a connection whose
frame stream is `frames` followed by a normal close. -/
structure ListenResult where
  dispatched : List String
  connRemoved : Bool
  raised : Bool
deriving Repr, DecidableEq

/-- From `services.py` `WebSocketService._listen_to_connection`: iterate the
frames; a normal end of stream goes through `_on_close`, which pops the
connection; any non-`ConnectionClosed` exception — in particular a
`json.loads` failure — is handled by `_on_error`, which pops the connection
and RE-RAISES the error, ending the listen task with it. -/
def listenToConnection (jsonLoads : String → Option String)
    (frames : List String) : ListenResult :=
  let r := listenLoop jsonLoads frames
  match r.2 with
  | none => { dispatched := r.1, connRemoved := true, raised := false }
  | some _ => { dispatched := r.1, connRemoved := true, raised := true }

/-- A concrete decoder: only the frame `"bad"` fails to decode. -/
def jsonLoads0 : String → Option String :=
  fun s => if s = "bad" then none else some s

/-- C6 as stated, refuted: it is NOT the case that a frame that fails to
decode is merely dropped with the loop continuing — on the stream
`["bad", "ok"]` the decodable later frame is never dispatched and the
listen task ends by re-raising the decode error. -/
theorem c6_counterexample :
    ¬((listenToConnection jsonLoads0 ["bad", "ok"]).dispatched
        = ["bad", "ok"].filterMap jsonLoads0 ∧
      (listenToConnection jsonLoads0 ["bad", "ok"]).raised = false) := by
  decide

/-- C6 amended: frames are decoded and dispatched in order until the first
frame that fails to decode; at that frame the loop terminates — earlier
frames are dispatched, the failing frame and all later frames are dropped,
the connection mapping is removed and the decode error is re-raised by
`_on_error` (ending the listen task).  When every frame decodes, all frames
are dispatched in order and the loop ends only with the transport close. -/
theorem c6_decode_failure_ends_loop (jsonLoads : String → Option String)
    (pre post : List String) (bad : String)
    (hpre : ∀ f ∈ pre, (jsonLoads f).isSome = true)
    (hbad : jsonLoads bad = none) :
    listenToConnection jsonLoads (pre ++ bad :: post)
      = { dispatched := pre.filterMap jsonLoads
          connRemoved := true
          raised := true } ∧
    ∀ frames : List String, (∀ f ∈ frames, (jsonLoads f).isSome = true) →
      listenToConnection jsonLoads frames
        = { dispatched := frames.filterMap jsonLoads
            connRemoved := true
            raised := false } := by
  have hall : ∀ frames : List String,
      (∀ f ∈ frames, (jsonLoads f).isSome = true) →
      listenLoop jsonLoads frames = (frames.filterMap jsonLoads, none) := by
    intro frames hframes
    induction frames with
    | nil => rfl
    | cons f fs ih =>
        have hf := hframes f (List.mem_cons_self f fs)
        rcases hr : jsonLoads f with _ | r
        · rw [hr] at hf
          simp at hf
        · rw [listenLoop, hr]
          rw [ih (fun g hg => hframes g (List.mem_cons_of_mem f hg))]
          simp [List.filterMap_cons, hr]
  constructor
  · have hloop : listenLoop jsonLoads (pre ++ bad :: post)
        = (pre.filterMap jsonLoads, some bad) := by
      induction pre with
      | nil => simp [listenLoop, hbad]
      | cons f fs ih =>
          have hf := hpre f (List.mem_cons_self f fs)
          rcases hr : jsonLoads f with _ | r
          · rw [hr] at hf
            simp at hf
          · rw [List.cons_append, listenLoop, hr]
            rw [ih (fun g hg => hpre g (List.mem_cons_of_mem f hg))]
            simp [List.filterMap_cons, hr]
    rw [listenToConnection, hloop]
  · intro frames hframes
    rw [listenToConnection, hall frames hframes]

/-- Witness for C6's amended statement: one good frame, then the bad frame,
then another good frame. -/
theorem c6_decode_failure_ends_loop_witness :
    ((∀ f ∈ ["ok1"], (jsonLoads0 f).isSome = true) ∧ jsonLoads0 "bad" = none) ∧
    (listenToConnection jsonLoads0 (["ok1"] ++ "bad" :: ["ok2"])
      = { dispatched := (["ok1"] : List String).filterMap jsonLoads0
          connRemoved := true
          raised := true } ∧
    ∀ frames : List String, (∀ f ∈ frames, (jsonLoads0 f).isSome = true) →
      listenToConnection jsonLoads0 frames
        = { dispatched := frames.filterMap jsonLoads0
            connRemoved := true
            raised := false }) :=
  ⟨⟨by decide, by decide⟩,
   c6_decode_failure_ends_loop jsonLoads0 ["ok1"] ["ok2"] "bad"
     (by decide) (by decide)⟩

/-! ## The get-or-create race (`WebSocketService._get_or_create_connection`
under two concurrent first calls for the same user) -/

/-- Where one in-flight `_get_or_create_connection(user)` call stands.
`ready`: about to run the `if user_id not in self.connections` membership
check (no suspension point before it).  `awaitingConnect`: suspended inside
`await websockets.connect(...)` — the only suspension point of the call;
the dict store and return that follow the await run without suspension.
`done conn created`: returned. -/
inductive CallPhase where
  | ready
  | awaitingConnect
  | done (conn : Nat) (created : Bool)
deriving Repr, DecidableEq

/-- Shared state for two concurrent `_get_or_create_connection` calls (tasks
A and B) for one user: the user's entry in `self.connections` (`tracked`),
the allocator for new connection ids, every connection
`websockets.connect` has returned (none is ever closed by this code path),
and the two call phases. -/
structure RaceState where
  tracked : Option Nat
  nextConn : Nat
  opened : List Nat
  taskA : CallPhase
  taskB : CallPhase
deriving Repr, DecidableEq

/-- Advance one call by one atomic step: the membership check either
returns the tracked connection (`done c false`) or proceeds to the
`await websockets.connect` (`awaitingConnect`); resuming from the await
opens a fresh connection, stores it in the dict and returns it
(`done conn true`); a finished call stutters. -/
def phaseStep (st : RaceState) (ph : CallPhase) : CallPhase × RaceState :=
  match ph with
  | CallPhase.ready =>
      match st.tracked with
      | some c => (CallPhase.done c false, st)
      | none => (CallPhase.awaitingConnect, st)
  | CallPhase.awaitingConnect =>
      (CallPhase.done st.nextConn true,
       { st with
         tracked := some st.nextConn
         nextConn := st.nextConn + 1
         opened := st.opened ++ [st.nextConn] })
  | CallPhase.done c b => (CallPhase.done c b, st)

/-- Run one scheduler step: `false` advances task A, `true` advances B. -/
def raceStep (st : RaceState) (who : Bool) : RaceState :=
  if who then
    let r := phaseStep st st.taskB
    { r.2 with taskB := r.1 }
  else
    let r := phaseStep st st.taskA
    { r.2 with taskA := r.1 }

/-- Both calls start with the user absent from `self.connections`. -/
def raceInit : RaceState :=
  ⟨none, 0, [], CallPhase.ready, CallPhase.ready⟩

/-- Execute a schedule (an interleaving of the two calls). -/
def raceRun (sched : List Bool) : RaceState :=
  sched.foldl raceStep raceInit

/-- C7 as stated, refuted: under the interleaving "A checks, B checks, A's
connect resolves, B's connect resolves" BOTH calls open a connection: two
distinct connections get opened for the same user (the registry then only
remembers the second; the first stays open untracked). -/
theorem c7_counterexample :
    ¬(∀ sched : List Bool, (raceRun sched).opened.length ≤ 1) :=
  fun h => absurd (h [false, true, false, true]) (by decide)

/-- Number of connections a call in this phase has opened. -/
def openCount : CallPhase → Nat
  | CallPhase.done _ true => 1
  | _ => 0

theorem phaseStep_spec (st : RaceState) (ph : CallPhase) :
    (phaseStep st ph).2.opened.length + openCount ph
      = st.opened.length + openCount (phaseStep st ph).1 ∧
    (phaseStep st ph).2.taskA = st.taskA ∧
    (phaseStep st ph).2.taskB = st.taskB ∧
    (∀ c, (phaseStep st ph).2.tracked = some c →
      c ∈ (phaseStep st ph).2.opened ∨ st.tracked = some c) ∧
    (∀ c, c ∈ st.opened → c ∈ (phaseStep st ph).2.opened) := by
  rcases ph with _ | _ | ⟨c, b⟩
  · rcases htr : st.tracked with _ | c0 <;>
      simp [phaseStep, htr, openCount]
  · simp [phaseStep, openCount]
    exact fun c hc => Or.inl hc
  · cases b <;> simp [phaseStep, openCount] <;>
      exact fun c2 hc2 => Or.inr hc2

/-- Invariant of the race: the opened connections are exactly those the two
calls created, and the tracked connection (if any) is one of them. -/
def raceInv (st : RaceState) : Prop :=
  st.opened.length = openCount st.taskA + openCount st.taskB ∧
  (∀ c, st.tracked = some c → c ∈ st.opened)

theorem raceInv_step (st : RaceState) (who : Bool) (h : raceInv st) :
    raceInv (raceStep st who) := by
  obtain ⟨h1, h2⟩ := h
  cases who
  · obtain ⟨p1, p2, p3, p4, p5⟩ := phaseStep_spec st st.taskA
    refine ⟨?_, ?_⟩
    · dsimp only [raceStep]
      simp only [Bool.false_eq_true, if_false]
      rw [p3]
      omega
    · intro c2 hc2
      dsimp only [raceStep] at hc2 ⊢
      simp only [Bool.false_eq_true, if_false] at hc2 ⊢
      rcases p4 c2 hc2 with hin | htr
      · exact hin
      · exact p5 c2 (h2 c2 htr)
  · obtain ⟨p1, p2, p3, p4, p5⟩ := phaseStep_spec st st.taskB
    refine ⟨?_, ?_⟩
    · dsimp only [raceStep]
      simp only [if_true]
      rw [p2]
      omega
    · intro c2 hc2
      dsimp only [raceStep] at hc2 ⊢
      simp only [if_true] at hc2 ⊢
      rcases p4 c2 hc2 with hin | htr
      · exact hin
      · exact p5 c2 (h2 c2 htr)

theorem raceInv_run (sched : List Bool) : raceInv (raceRun sched) := by
  have hgen : ∀ (l : List Bool) (st : RaceState), raceInv st →
      raceInv (l.foldl raceStep st) := by
    intro l
    induction l with
    | nil => exact fun st h => h
    | cons w ws ih => exact fun st h => ih (raceStep st w) (raceInv_step st w h)
  refine hgen sched raceInit ⟨by simp [raceInit, openCount], ?_⟩
  intro c hc
  simp [raceInit] at hc

theorem openCount_le_one (ph : CallPhase) : openCount ph ≤ 1 := by
  rcases ph with _ | _ | ⟨c, b⟩
  · simp [openCount]
  · simp [openCount]
  · cases b <;> simp [openCount]

/-- C7 amended: the check-then-await-then-store sequence in
`_get_or_create_connection` is not atomic, so two concurrent first calls
can EACH open a connection (at most one each, so at most two in total);
the tracked connection is always one of the opened ones, but after the
race the other opened connection is left open and untracked.  When the two
calls do not interleave, only one connection is opened and the second call
returns it with `created = false`; under the racing interleaving both
calls report `created = true`, two connections are opened, and the
registry tracks the later one. -/
theorem c7_race_two_connections :
    (∀ sched : List Bool,
      (raceRun sched).opened.length ≤ 2 ∧
      (∀ c, (raceRun sched).tracked = some c → c ∈ (raceRun sched).opened)) ∧
    raceRun [false, false, true, true]
      = ⟨some 0, 1, [0], CallPhase.done 0 true, CallPhase.done 0 false⟩ ∧
    raceRun [false, true, false, true]
      = ⟨some 1, 2, [0, 1], CallPhase.done 0 true, CallPhase.done 1 true⟩ := by
  refine ⟨?_, by decide, by decide⟩
  intro sched
  obtain ⟨h1, h2⟩ := raceInv_run sched
  refine ⟨?_, h2⟩
  have ha := openCount_le_one (raceRun sched).taskA
  have hb := openCount_le_one (raceRun sched).taskB
  omega

/-- Witness for C7's amended statement at the racing schedule. -/
theorem c7_race_two_connections_witness :
    (raceRun [false, true, false, true]).opened.length ≤ 2 ∧
    (∀ c, (raceRun [false, true, false, true]).tracked = some c →
      c ∈ (raceRun [false, true, false, true]).opened) :=
  c7_race_two_connections.1 [false, true, false, true]
